import Mathlib

/-!
# Verification of the YouTube-video RAG retrieval core

A shallow embedding of the retrieval core of the YT_VIDEO_RAG repository
(`vector_db.py`, `app.py`, `local_llm.py`, `audio_processor.py`, `config.py`),
together with proofs settling the specification claims about it.

Conventions of the embedding:
* The Chroma persistent client is modelled as an association list from
  collection names to lists of stored documents.  Chroma operations that raise
  on a missing collection are modelled with `Option`/branching, exactly where
  the Python code wraps them in `try`/`except`.
* External collaborators (the text splitter from langchain, the vector
  similarity ranking performed inside Chroma's `query`, yt-dlp extraction, the
  Ollama HTTP call, Whisper transcription) are passed in as explicit
  parameters or outcome values; the control flow around them is translated
  line by line from the Python source.
* Python's per-process salted string hash (`hash(str)`, salted via
  `PYTHONHASHSEED` since Python 3.3) is modelled as an explicit function of
  the process salt.
-/

namespace YtRag

/-- A document stored in a collection: the chunk text together with the
metadata and id that `VectorDBManager.add_transcript` attaches to it
(vector_db.py lines 56-64). -/
structure Doc where
  text : String
  video_title : String
  uploader : String
  chunk_index : Nat
  id : String
deriving DecidableEq

/-- The fields of the transcript dictionary that `add_transcript` reads:
`title`, `transcript`, and the optional `uploader` key (read with
`.get('uploader', 'Unknown')`).  The remaining keys (`word_count`,
`segments`) are not consumed by the retrieval core. -/
structure TranscriptData where
  title : String
  uploader : Option String
  transcript : String
deriving DecidableEq

/-- The Chroma persistent store: a map from collection names to the documents
they hold, modelled as an association list (collection names are unique in
Chroma; all operations below preserve uniqueness of keys). -/
abbrev Store := List (String × List Doc)

/-- Lookup modelling `client.get_collection(name)`: `some` documents when the
collection exists, `none` when Chroma would raise. -/
def storeLookup : Store → String → Option (List Doc)
  | [], _ => none
  | (n, c) :: rest, k => if n = k then some c else storeLookup rest k

/-- Removing every binding of a collection name (the effect of
`client.delete_collection(name)` when the name exists; a no-op when it does
not, which is how the `try`/`except: pass` wrapper behaves). -/
def storeErase : Store → String → Store
  | [], _ => []
  | (n, c) :: rest, k =>
    if n = k then storeErase rest k else (n, c) :: storeErase rest k

/-- Model of `collection.add(...)` on the collection named `k`: appends the documents
to that collection, leaving every other collection unchanged. -/
def storeAdd (st : Store) (k : String) (ds : List Doc) : Store :=
  st.map (fun p => if p.1 = k then (p.1, p.2 ++ ds) else p)

/-- The state of a `VectorDBManager` instance: the persistent Chroma store,
the `current_collection` attribute, and whether the embedding model loaded
(`load_embedding_model` can return `None`). -/
structure DBState where
  store : Store
  current_collection : Option String
  embedding_loaded : Bool
deriving DecidableEq

/-- Python `str.strip()`: remove leading and trailing whitespace.  Defined
structurally on the character list so the kernel can evaluate it. -/
def pyStrip (s : String) : String :=
  String.mk
    (((s.data.dropWhile Char.isWhitespace).reverse.dropWhile
      Char.isWhitespace).reverse)

/-- Python `str.rstrip()`: remove trailing whitespace from a character
list. -/
def pyRstrip (l : List Char) : List Char :=
  (l.reverse.dropWhile Char.isWhitespace).reverse

/-- vector_db.py line 33: keep alphanumeric characters, spaces, hyphens and
underscores, then strip trailing whitespace (`str.rstrip`). -/
def sanitize_title (t : String) : String :=
  String.mk (pyRstrip (t.data.filter
    (fun c => c.isAlphanum || c == ' ' || c == '-' || c == '_')))

/-- Model of CPython's built-in `hash` on `str`, used at vector_db.py line 34.
Since Python 3.3, string hashing is keyed by a per-process random salt
(`PYTHONHASHSEED`), so the hash of a non-empty string is a function of both
the salt and the string, deterministic only within one process; `hash("")`
is `0` in every process.  The exact siphash mixing is irrelevant to the
claims; this model keeps the two facts that matter: determinism for a fixed
salt, and genuine dependence on the salt for non-empty strings. -/
def pythonStrHash (seed : Nat) (s : String) : Nat :=
  if s = "" then 0
  else s.data.foldl (fun h c => (h * 31 + c.toNat) % 2 ^ 64) (seed % 2 ^ 64)

/-- vector_db.py lines 33-34: the collection name derived from the video
title, `f"video_{hash(safe_title) % 1000000}"`. -/
def derived_collection_name (seed : Nat) (title : String) : String :=
  "video_" ++ Nat.repr (pythonStrHash seed (sanitize_title title) % 1000000)

/-- vector_db.py lines 52-64: the loop over `enumerate(chunks)` that keeps a
chunk only when `len(chunk.strip()) > 10`, attaching metadata
`{video_title, chunk_index, uploader}` and id `f"chunk_{i}"`.  The first
argument of the recursion is the running enumeration index `i`. -/
def buildDocs (td : TranscriptData) : Nat → List String → List Doc
  | _, [] => []
  | i, chunk :: rest =>
    if 10 < (pyStrip chunk).length then
      { text := chunk
        video_title := td.title
        uploader := td.uploader.getD "Unknown"
        chunk_index := i
        id := "chunk_" ++ Nat.repr i } :: buildDocs td (i + 1) rest
    else buildDocs td (i + 1) rest

/-- Translation of `VectorDBManager.add_transcript` (vector_db.py lines 26-78),
line by line.  `split` is the injected langchain text splitter
(`self.text_splitter.split_text`) and `seed` the process hash salt.  Returns
the updated manager state and the collection name (`None` on failure).
The `try delete_collection / except pass` at lines 37-40 is `storeErase`;
`get_or_create_collection` at line 42 then always creates the collection
empty, because the name was just erased. -/
def add_transcript (split : String → List String) (seed : Nat)
    (s : DBState) (td : TranscriptData) : DBState × Option String :=
  if s.embedding_loaded = false then (s, none)
  else
    let collection_name := derived_collection_name seed td.title
    let store1 := storeErase s.store collection_name
    let store2 := store1 ++ [(collection_name, [])]
    if pyStrip td.transcript = "" then ({ s with store := store2 }, none)
    else
      let chunks := split td.transcript
      let documents := buildDocs td 0 chunks
      if documents = [] then ({ s with store := store2 }, none)
      else
        ({ s with
            store := storeAdd store2 collection_name documents
            current_collection := some collection_name },
          some collection_name)

/-- The result dictionary of `collection.query`: Chroma returns one row per
query text, so `rows` has exactly one inner list for the single-query calls
the code makes; an empty collection yields an empty inner row, not an
error. -/
structure QueryResult where
  rows : List (List Doc)
deriving DecidableEq

/-- The `results['documents']` field: the texts, one inner list per query. -/
def QueryResult.documents (r : QueryResult) : List (List String) :=
  r.rows.map (fun row => row.map (fun d => d.text))

/-- Model of `collection.query(query_texts=[q], n_results=n)` on a collection holding
`docs`: Chroma ranks the collection's documents by vector similarity to the
query and returns the `n` nearest.  The ranking is the external
embedding-distance computation, injected as `rank`; the claims only rely on
it selecting among the given documents. -/
def collection_query (rank : String → List Doc → List Doc)
    (docs : List Doc) (q : String) (n : Nat) : QueryResult :=
  { rows := [(rank q docs).take n] }

/-- Translation of `VectorDBManager.search` (vector_db.py lines 80-103), line by
line: fall back to `self.current_collection` only when `collection_name` is
`None`; return `None` when the effective name is falsy (`None` or `""`);
`get_collection` raising on a missing name is caught by the outer
`try`/`except` and becomes `None`; finally
`return results if results['documents'] else None`. -/
def search (rank : String → List Doc → List Doc) (s : DBState)
    (query : String) (collection_name : Option String) (n_results : Nat) :
    Option QueryResult :=
  let cname := match collection_name with
    | none => s.current_collection
    | some c => some c
  match cname with
  | none => none
  | some c =>
    if c = "" then none
    else
      match storeLookup s.store c with
      | none => none
      | some docs =>
        let results := collection_query rank docs query n_results
        if results.documents = [] then none else some results

/-- Translation of `VectorDBManager.delete_collection` (vector_db.py lines 105-113):
`client.delete_collection` raises when the name does not exist, which the
`except` turns into `False` with the state untouched; on success the
`current_collection` attribute is cleared when it names the deleted
collection, and `True` is returned. -/
def delete_collection (s : DBState) (name : String) : DBState × Bool :=
  match storeLookup s.store name with
  | some _ =>
    ({ s with
        store := storeErase s.store name
        current_collection :=
          if s.current_collection = some name then none
          else s.current_collection },
      true)
  | none => (s, false)

/-- The assistant response produced by `handle_user_message`: either the
generation collaborator was called (with the prompt and the concatenated
context) or the canned no-relevant-content message was used.  The LLM itself
is external, so the constructor records the call and its arguments. -/
inductive ChatResponse where
  | generated (query context : String)
  | noRelevant
deriving DecidableEq

/-- The canned fallback message at app.py line 342. -/
def noRelevantMessage : String :=
  "I couldn't find relevant information in this video to answer your question."

/-- Translation of `YouTubeRAGChat.handle_user_message`, response branch (app.py lines
330-342): search the session's current collection, and when
`search_results and search_results['documents']` is truthy, join
`search_results['documents'][0][:3]` with blank lines and call
`self.llm.generate_response(prompt, context)`; otherwise answer with the
canned message. -/
def handle_user_message (rank : String → List Doc → List Doc) (db : DBState)
    (session_current : Option String) (prompt : String) : ChatResponse :=
  match search rank db prompt session_current 3 with
  | some res =>
    if res.documents = [] then ChatResponse.noRelevant
    else
      ChatResponse.generated prompt
        (String.intercalate "\n\n" ((res.documents.headD []).take 3))
  | none => ChatResponse.noRelevant

/-- A `processed_videos` library entry (app.py lines 282-293), restricted to
the fields the claims are about: the video title and the derived
`collection_id`. -/
structure LibEntry where
  title : String
  collection_id : String
deriving DecidableEq

/-- app.py lines 298-304: before appending a processed video, when
`len(st.session_state.processed_videos) >= 5` the oldest entry is removed
with `pop(0)` and its collection deleted through
`self.vector_db.delete_collection`; then the new entry is appended. -/
def registerVideo (db : DBState) (lib : List LibEntry) (v : LibEntry) :
    DBState × List LibEntry :=
  if 5 ≤ lib.length then
    match lib with
    | [] => (db, lib ++ [v])
    | oldest :: rest =>
      ((delete_collection db oldest.collection_id).1, rest ++ [v])
  else (db, lib ++ [v])

/-- config.py line 28. -/
def MAX_VIDEO_LENGTH : Nat := 7200

/-- Python's `f"{n:02d}"`: decimal representation left-padded with `0` to
width 2. -/
def pad2 (n : Nat) : String :=
  if n < 10 then "0" ++ Nat.repr n else Nat.repr n

/-- Translation of `AudioProcessor.format_duration` (audio_processor.py lines 132-144):
`"Unknown"` for a falsy duration, otherwise `HH:MM:SS` when there are hours
and `MM:SS` otherwise. -/
def format_duration (seconds : Nat) : String :=
  if seconds = 0 then "Unknown"
  else
    let hours := seconds / 3600
    let minutes := (seconds % 3600) / 60
    let secs := seconds % 60
    if 0 < hours then pad2 hours ++ ":" ++ pad2 minutes ++ ":" ++ pad2 secs
    else pad2 minutes ++ ":" ++ pad2 secs

/-- The fields of the yt-dlp `extract_info` dictionary that
`get_video_info`'s success/failure decision and the claims read. -/
structure RawVideoInfo where
  title : String
  uploader : String
  duration : Nat
deriving DecidableEq

/-- The result dictionary of `AudioProcessor.get_video_info`, restricted to
the fields the claims read. -/
structure VideoInfoResult where
  success : Bool
  error : String
  title : String
  uploader : String
  duration_seconds : Nat
deriving DecidableEq

/-- Translation of `AudioProcessor.get_video_info` (audio_processor.py lines 65-104):
reject an invalid URL; propagate a yt-dlp extraction failure; reject a video
whose reported duration exceeds `MAX_VIDEO_LENGTH` with the
`'Video too long'` error; otherwise succeed with the metadata.  URL
validation and the yt-dlp call are the external inputs `urlValid` and
`extracted`. -/
def get_video_info (urlValid : Bool) (extracted : Except String RawVideoInfo) :
    VideoInfoResult :=
  if urlValid = false then
    { success := false, error := "Invalid YouTube URL"
      title := "", uploader := "", duration_seconds := 0 }
  else
    match extracted with
    | Except.error e =>
      { success := false, error := e, title := "", uploader := ""
        duration_seconds := 0 }
    | Except.ok info =>
      if MAX_VIDEO_LENGTH < info.duration then
        { success := false
          error := "Video too long (" ++ format_duration info.duration ++
            "). Max allowed: " ++ format_duration MAX_VIDEO_LENGTH
          title := "", uploader := "", duration_seconds := 0 }
      else
        { success := true, error := "", title := info.title
          uploader := info.uploader, duration_seconds := info.duration }

/-- The external collaborator outcomes consumed by one run of
`YouTubeRAGChat.process_video`: URL validation and yt-dlp extraction (step
1), the audio download (step 2), the transcription (step 3, a dictionary
that either carries an `error` key or the transcript data), the injected
text splitter, and the process hash salt. -/
structure ProcessEnv where
  urlValid : Bool
  extracted : Except String RawVideoInfo
  download : Except String String
  transcribe : Except String TranscriptData
  split : String → List String
  seed : Nat

/-- Where one run of `process_video` stopped (the early `return`s at app.py
lines 239-277) or that it completed (line 310). -/
inductive ProcessOutcome where
  | infoFailed (err : String)
  | downloadFailed (err : String)
  | transcribeFailed (err : String)
  | indexFailed
  | ready (collection_id : String)
deriving DecidableEq

/-- Translation of `YouTubeRAGChat.process_video` (app.py lines 228-316), step by
step over the vector-store state and the `processed_videos` library.  Each
failed step returns immediately, leaving both unchanged except for whatever
the failing step itself already did; on success the library entry is
registered with the capacity-5 eviction of `registerVideo`.  UI-only effects
(status placeholders, progress bar, chat-history clearing, caching of video
info) are not part of the model. -/
def process_video (env : ProcessEnv) (db : DBState) (lib : List LibEntry) :
    ProcessOutcome × DBState × List LibEntry :=
  let vi := get_video_info env.urlValid env.extracted
  if vi.success = false then (ProcessOutcome.infoFailed vi.error, db, lib)
  else
    match env.download with
    | Except.error e => (ProcessOutcome.downloadFailed e, db, lib)
    | Except.ok _ =>
      match env.transcribe with
      | Except.error e => (ProcessOutcome.transcribeFailed e, db, lib)
      | Except.ok td =>
        match add_transcript env.split env.seed db td with
        | (db1, none) => (ProcessOutcome.indexFailed, db1, lib)
        | (db1, some cn) =>
          let entry : LibEntry := { title := vi.title, collection_id := cn }
          let (db2, lib2) := registerVideo db1 lib entry
          (ProcessOutcome.ready cn, db2, lib2)

/-- The Ollama response body fields that `generate_response` reads:
`result.get("response", "")` on a 200, and `response.json().get("error","")`
on a non-200 (where the JSON parse itself may fail, hence `Option`). -/
structure OllamaBody where
  response : Option String
  errorDetail : Option String
deriving DecidableEq

/-- The outcome of the `requests.post` call inside
`LocalLLM.generate_response`: an HTTP response with a status code and body,
a timeout, a connection failure, or any other exception. -/
inductive HttpOutcome where
  | ok (status : Nat) (body : OllamaBody)
  | timeout
  | connectionError
  | exc (msg : String)
deriving DecidableEq

/-- Which outcomes are failures from the caller's point of view: everything
except an HTTP 200 response. -/
def isFailureOutcome : HttpOutcome → Bool
  | HttpOutcome.ok status _ => status != 200
  | _ => true

/-- Translation of `LocalLLM.generate_response` (local_llm.py lines 45-108),
branch by branch over the outcome of the HTTP call: a 200 yields the cleaned
generated text (or a canned retry message when it is empty); a non-200
yields an `"Error: Ollama API error: ..."` string, with the server's error
detail appended when the body parses; `Timeout`, `ConnectionError` and any
other exception are each mapped to an `"Error: ..."` string.  Every branch
returns a string; no exception escapes to the session. -/
def generate_response (query context : String) (outcome : HttpOutcome) :
    String :=
  let _prompt :=
    "Based on the following video transcript content, answer the user's question accurately and concisely.\n\nVIDEO TRANSCRIPT:\n"
      ++ context ++ "\n\nUSER QUESTION: " ++ query
  match outcome with
  | HttpOutcome.ok status body =>
    if status = 200 then
      let generated_text := pyStrip (body.response.getD "")
      if generated_text = "" then
        "I couldn't generate a response. Please try again."
      else pyStrip (generated_text.replace "ANSWER:" "")
    else
      let base := "Ollama API error: " ++ Nat.repr status
      let error_msg :=
        match body.errorDetail with
        | some d => if d = "" then base else base ++ " - " ++ d
        | none => base
      "Error: " ++ error_msg
  | HttpOutcome.timeout =>
    "Error: " ++
      "Request timed out. The model might be processing a complex query."
  | HttpOutcome.connectionError =>
    "Error: " ++
      "Cannot connect to Ollama server. Make sure it's running with `ollama serve`."
  | HttpOutcome.exc msg => "Error: " ++ msg

/-! Auxiliary definitions for the proofs -/

/-- Decimal value of a digit character. -/
def digitVal (c : Char) : Nat := c.toNat - 48

/-- Decode a most-significant-first list of decimal digit characters. -/
def decodeDigits (l : List Char) : Nat :=
  l.foldl (fun a c => a * 10 + digitVal c) 0

/-! Concrete fixtures used by witnesses and counterexamples -/

/-- A trivial similarity ranking (returns the collection unchanged); any
concrete ranking selecting among the stored documents instantiates the
`rank` parameter. -/
def rankAll : String → List Doc → List Doc := fun _ ds => ds

/-- A trivial text splitter returning the whole text as one chunk. -/
def splitWhole : String → List String := fun t => [t]

/-- An empty manager state with the embedding model loaded. -/
def db0 : DBState :=
  { store := [], current_collection := none, embedding_loaded := true }

/-- A stored document of video A. -/
def docA : Doc :=
  { text := "alpha content", video_title := "A", uploader := "UA"
    chunk_index := 0, id := "chunk_0" }

/-- A stored document of video B. -/
def docB : Doc :=
  { text := "beta content", video_title := "B", uploader := "UB"
    chunk_index := 0, id := "chunk_0" }

/-- Two ingested videos, with B marked as the manager's current
collection. -/
def dbTwo : DBState :=
  { store := [("a", [docA]), ("b", [docB])]
    current_collection := some "b", embedding_loaded := true }

/-- A state holding one existing collection with zero documents. -/
def dbEmptyTalk : DBState :=
  { store := [("talk", [])], current_collection := none
    embedding_loaded := true }

/-- A whitespace-only transcript. -/
def tdBlank : TranscriptData :=
  { title := "T", uploader := none, transcript := "   " }

/-- A transcript whose single chunk survives the minimum-length filter. -/
def tdGood : TranscriptData :=
  { title := "T", uploader := some "U"
    transcript := "This transcript definitely has more than ten characters." }

/-- Collaborator outcomes for a run whose transcription comes back
whitespace-only. -/
def envBlank : ProcessEnv :=
  { urlValid := true
    extracted := Except.ok { title := "T", uploader := "U", duration := 100 }
    download := Except.ok "audio.mp3"
    transcribe := Except.ok tdBlank
    split := splitWhole, seed := 0 }

/-- Collaborator outcomes for a video reported as 7201 seconds long. -/
def envLong : ProcessEnv :=
  { urlValid := true
    extracted :=
      Except.ok { title := "Long", uploader := "U", duration := 7201 }
    download := Except.error "never reached"
    transcribe := Except.error "never reached"
    split := splitWhole, seed := 0 }

/-- A library already holding five processed videos. -/
def lib5 : List LibEntry :=
  [{ title := "t1", collection_id := "c1" },
    { title := "t2", collection_id := "c2" },
    { title := "t3", collection_id := "c3" },
    { title := "t4", collection_id := "c4" },
    { title := "t5", collection_id := "c5" }]

/-- A store still holding the collections of the two oldest library
entries. -/
def db5 : DBState :=
  { store := [("c1", [docA]), ("c2", [docB])]
    current_collection := none, embedding_loaded := true }

/-- The sixth video's library entry. -/
def v6 : LibEntry := { title := "t6", collection_id := "c6" }

/-! Helper lemmas about the store operations -/

theorem storeLookup_erase_self (st : Store) (k : String) :
    storeLookup (storeErase st k) k = none := by
  induction st with
  | nil => rfl
  | cons p rest ih =>
    obtain ⟨n, c⟩ := p
    by_cases h : n = k
    · simpa [storeErase, h] using ih
    · simp [storeErase, storeLookup, h, ih]

theorem storeLookup_erase_ne (st : Store) (k k2 : String) (h : k2 ≠ k) :
    storeLookup (storeErase st k) k2 = storeLookup st k2 := by
  induction st with
  | nil => rfl
  | cons p rest ih =>
    obtain ⟨n, c⟩ := p
    by_cases hk : n = k
    · subst hk
      simp [storeErase, storeLookup, Ne.symm h, ih]
    · simp [storeErase, storeLookup, hk, ih]

theorem storeErase_append (a b : Store) (k : String) :
    storeErase (a ++ b) k = storeErase a k ++ storeErase b k := by
  induction a with
  | nil => rfl
  | cons p rest ih =>
    obtain ⟨n, c⟩ := p
    by_cases h : n = k <;> simp [storeErase, h, ih]

theorem storeErase_of_lookup_none (st : Store) (k : String)
    (h : storeLookup st k = none) : storeErase st k = st := by
  induction st with
  | nil => rfl
  | cons p rest ih =>
    obtain ⟨n, c⟩ := p
    by_cases hk : n = k
    · simp [storeLookup, hk] at h
    · simp only [storeLookup, if_neg hk] at h
      simp [storeErase, hk, ih h]

theorem storeErase_erase_self (st : Store) (k : String) :
    storeErase (storeErase st k) k = storeErase st k :=
  storeErase_of_lookup_none _ _ (storeLookup_erase_self st k)

theorem storeLookup_append_self (st : Store) (k : String) (c : List Doc)
    (h : storeLookup st k = none) :
    storeLookup (st ++ [(k, c)]) k = some c := by
  induction st with
  | nil => simp [storeLookup]
  | cons p rest ih =>
    obtain ⟨n, d⟩ := p
    by_cases hk : n = k
    · simp [storeLookup, hk] at h
    · simp only [storeLookup, if_neg hk] at h
      simp [storeLookup, hk, ih h]

theorem storeAdd_of_lookup_none (st : Store) (k : String) (ds : List Doc)
    (h : storeLookup st k = none) : storeAdd st k ds = st := by
  induction st with
  | nil => rfl
  | cons p rest ih =>
    obtain ⟨n, c⟩ := p
    by_cases hk : n = k
    · simp [storeLookup, hk] at h
    · simp only [storeLookup, if_neg hk] at h
      simp only [storeAdd, List.map_cons] at ih ⊢
      simp [hk, ih h]

/-- The store produced by a successful `collection.add` on the freshly
created collection: the erased original followed by the filled
collection. -/
theorem storeAdd_fresh (st : Store) (k : String) (ds : List Doc)
    (h : storeLookup st k = none) :
    storeAdd (st ++ [(k, [])] ) k ds = st ++ [(k, ds)] := by
  have : storeAdd (st ++ [(k, [])]) k ds =
      storeAdd st k ds ++ storeAdd [(k, [])] k ds := by
    simp [storeAdd]
  rw [this, storeAdd_of_lookup_none st k ds h]
  simp [storeAdd]

/-! Injectivity of `Nat.repr`:

The chunk ids `f"chunk_{i}"` are strings, so uniqueness of the ids in a
collection reduces to injectivity of the decimal printer `Nat.repr`.  We
prove it by decoding: `decodeDigits` is a left inverse of
`Nat.toDigits 10`. -/

theorem digitVal_digitChar (d : Nat) (h : d < 10) :
    digitVal (Nat.digitChar d) = d := by
  interval_cases d <;> rfl

theorem toDigitsCore_append (fuel : Nat) :
    ∀ (n : Nat) (acc : List Char), n < fuel →
      Nat.toDigitsCore 10 fuel n acc =
        Nat.toDigitsCore 10 fuel n [] ++ acc := by
  induction fuel with
  | zero => intro n acc h; exact absurd h (Nat.not_lt_zero n)
  | succ f ih =>
    intro n acc h
    simp only [Nat.toDigitsCore]
    by_cases h10 : n / 10 = 0
    · simp [h10]
    · simp only [h10, if_false]
      have hlt : n / 10 < f := by
        have : n / 10 < n := Nat.div_lt_self (by omega) (by omega)
        omega
      rw [ih (n / 10) _ hlt, ih (n / 10) [Nat.digitChar (n % 10)] hlt]
      simp

theorem toDigitsCore_fuel (f1 : Nat) :
    ∀ (f2 n : Nat) (acc : List Char), n < f1 → n < f2 →
      Nat.toDigitsCore 10 f1 n acc = Nat.toDigitsCore 10 f2 n acc := by
  induction f1 with
  | zero => intro _ n _ h1 _; exact absurd h1 (Nat.not_lt_zero n)
  | succ a ih =>
    intro f2 n acc h1 h2
    cases f2 with
    | zero => exact absurd h2 (Nat.not_lt_zero n)
    | succ b =>
      simp only [Nat.toDigitsCore]
      by_cases h10 : n / 10 = 0
      · simp [h10]
      · simp only [h10, if_false]
        have hd : n / 10 < n := Nat.div_lt_self (by omega) (by omega)
        exact ih b (n / 10) _ (by omega) (by omega)

theorem decode_toDigits (n : Nat) :
    decodeDigits (Nat.toDigits 10 n) = n := by
  induction n using Nat.strong_induction_on with
  | _ n ih =>
    unfold Nat.toDigits
    simp only [Nat.toDigitsCore]
    by_cases h10 : n / 10 = 0
    · have hn : n < 10 := by omega
      have := digitVal_digitChar (n % 10) (Nat.mod_lt _ (by omega))
      simp [h10, decodeDigits, this]
      omega
    · simp only [h10, if_false]
      have hd : n / 10 < n := Nat.div_lt_self (by omega) (by omega)
      rw [toDigitsCore_append n (n / 10) _ hd,
        toDigitsCore_fuel n (n / 10 + 1) (n / 10) [] hd (Nat.lt_succ_self _)]
      have hrec := ih (n / 10) hd
      unfold Nat.toDigits at hrec
      simp only [decodeDigits, List.foldl_append] at hrec ⊢
      rw [hrec]
      simp only [List.foldl_cons, List.foldl_nil]
      rw [digitVal_digitChar (n % 10) (by omega)]
      omega

theorem natRepr_inj {m n : Nat} (h : Nat.repr m = Nat.repr n) : m = n := by
  have hdata : Nat.toDigits 10 m = Nat.toDigits 10 n := by
    have := congrArg String.data h
    simpa [Nat.repr, List.asString] using this
  have := congrArg decodeDigits hdata
  simpa [decode_toDigits] using this

theorem chunkId_inj {i j : Nat}
    (h : "chunk_" ++ Nat.repr i = "chunk_" ++ Nat.repr j) : i = j := by
  have hdata := congrArg String.data h
  simp only [String.data_append] at hdata
  have := List.append_cancel_left hdata
  exact natRepr_inj (String.ext this)

/-! Lemmas about `buildDocs`, `delete_collection` and `add_transcript` -/

theorem buildDocs_mem (td : TranscriptData) :
    ∀ (i : Nat) (chunks : List String) (d : Doc),
      d ∈ buildDocs td i chunks →
      10 < (pyStrip d.text).length ∧ d.video_title = td.title ∧
      d.uploader = td.uploader.getD "Unknown" ∧
      d.id = "chunk_" ++ Nat.repr d.chunk_index ∧ i ≤ d.chunk_index := by
  intro i chunks
  induction chunks generalizing i with
  | nil => intro d hd; simp [buildDocs] at hd
  | cons c rest ih =>
    intro d hd
    simp only [buildDocs] at hd
    by_cases hc : 10 < (pyStrip c).length
    · rw [if_pos hc] at hd
      rcases List.mem_cons.mp hd with h | h
      · subst h
        exact ⟨hc, rfl, rfl, rfl, Nat.le_refl i⟩
      · have h5 := ih (i + 1) d h
        exact ⟨h5.1, h5.2.1, h5.2.2.1, h5.2.2.2.1, by omega⟩
    · rw [if_neg hc] at hd
      have h5 := ih (i + 1) d hd
      exact ⟨h5.1, h5.2.1, h5.2.2.1, h5.2.2.2.1, by omega⟩

theorem buildDocs_ids_nodup (td : TranscriptData) :
    ∀ (i : Nat) (chunks : List String),
      ((buildDocs td i chunks).map (fun d => d.id)).Nodup := by
  intro i chunks
  induction chunks generalizing i with
  | nil => simp [buildDocs]
  | cons c rest ih =>
    simp only [buildDocs]
    by_cases hc : 10 < (pyStrip c).length
    · rw [if_pos hc]
      refine List.nodup_cons.mpr ⟨?_, ih (i + 1)⟩
      intro hmem
      rcases List.mem_map.mp hmem with ⟨d, hd, hid⟩
      have h5 := buildDocs_mem td (i + 1) rest d hd
      have : i = d.chunk_index := chunkId_inj (hid.symm.trans h5.2.2.2.1)
      omega
    · rw [if_neg hc]
      exact ih (i + 1)

theorem delete_collection_lookup (s : DBState) (name : String) :
    storeLookup (delete_collection s name).1.store name = none := by
  unfold delete_collection
  cases hl : storeLookup s.store name with
  | none => simpa using hl
  | some c => simp [storeLookup_erase_self]

/-- Normal form of `add_transcript`: the fresh-collection bookkeeping
(`storeErase`, `get_or_create`, `collection.add`) collapses to erasing the
derived name and appending a single binding. -/
theorem add_transcript_eq (split : String → List String) (seed : Nat)
    (s : DBState) (td : TranscriptData) :
    add_transcript split seed s td =
      if s.embedding_loaded = false then (s, none)
      else
        let cn := derived_collection_name seed td.title
        let docs := buildDocs td 0 (split td.transcript)
        if pyStrip td.transcript = "" then
          ({ s with store := storeErase s.store cn ++ [(cn, [])] }, none)
        else if docs = [] then
          ({ s with store := storeErase s.store cn ++ [(cn, [])] }, none)
        else
          ({ s with
              store := storeErase s.store cn ++ [(cn, docs)]
              current_collection := some cn }, some cn) := by
  unfold add_transcript
  by_cases hemb : s.embedding_loaded = false
  · simp [hemb]
  · simp only [hemb, if_false]
    by_cases ht : pyStrip td.transcript = ""
    · simp [ht]
    · simp only [ht, if_false]
      by_cases hd : buildDocs td 0 (split td.transcript) = []
      · simp [hd]
      · simp only [hd, if_false]
        rw [storeAdd_fresh _ _ _ (storeLookup_erase_self s.store _)]

/-! Claim theorems -/

/-- C1: for every call to `VectorDBManager.search` that passes a collection
identifier, the query is answered exclusively from that collection — every
returned document belongs to the documents stored under exactly that name —
and the result does not depend on the store's `current_collection`, so no
fallback to the "current" collection can occur and no returned document can
come from a different video's collection.  The hypothesis on `rank` states
the Chroma query contract: similarity ranking selects among the given
collection's documents. -/
theorem search_scoped_to_collection
    (rank : String → List Doc → List Doc)
    (hrank : ∀ q ds, ∀ d ∈ rank q ds, d ∈ ds)
    (s : DBState) (q name : String) (n : Nat) (res : QueryResult)
    (h : search rank s q (some name) n = some res) :
    (∃ docs, storeLookup s.store name = some docs ∧
        ∀ row ∈ res.rows, ∀ d ∈ row, d ∈ docs) ∧
    (∀ cur, search rank { s with current_collection := cur } q (some name) n =
        search rank s q (some name) n) := by
  constructor
  · simp only [search] at h
    by_cases hn : name = ""
    · rw [if_pos hn] at h; cases h
    · rw [if_neg hn] at h
      cases hl : storeLookup s.store name with
      | none => rw [hl] at h; cases h
      | some docs =>
        rw [hl] at h
        refine ⟨docs, rfl, ?_⟩
        simp only [collection_query, QueryResult.documents] at h
        rw [if_neg (by simp)] at h
        have hres : res = { rows := [(rank q docs).take n] } := by
          injection h with h9; exact h9.symm
        subst hres
        intro row hrow d hd
        have hrow9 : row = (rank q docs).take n := by
          simpa using hrow
        subst hrow9
        exact hrank q docs d (List.Sublist.mem hd (List.take_sublist n _))
  · intro cur; rfl

/-- C1 witness: a concrete two-video store where searching collection `"a"`
returns only video A's document, independently of the current collection. -/
theorem search_scoped_to_collection_witness :
    search rankAll dbTwo "q" (some "a") 3 = some { rows := [[docA]] } ∧
    ((∃ docs, storeLookup dbTwo.store "a" = some docs ∧
        ∀ row ∈ ({ rows := [[docA]] } : QueryResult).rows,
          ∀ d ∈ row, d ∈ docs) ∧
      (∀ cur,
        search rankAll { dbTwo with current_collection := cur } "q"
            (some "a") 3 =
          search rankAll dbTwo "q" (some "a") 3)) :=
  ⟨by decide,
    search_scoped_to_collection rankAll (fun _ _ _ hd => hd) dbTwo "q" "a" 3
      { rows := [[docA]] } (by decide)⟩

/-- C2 (code bug): querying an existing collection with zero documents does
return an empty result rather than an error — but the ask path does NOT
surface the canned "no relevant content" response: because Chroma returns
one (empty) inner row per query text, both truthiness checks
(`results['documents']` in `search`, vector_db.py line 99, and
`search_results['documents']` in `handle_user_message`, app.py line 337)
see the non-empty outer list `[[]]`, so the generation collaborator is
called with an empty context string. -/
theorem empty_collection_reaches_generator :
    search rankAll dbEmptyTalk "What is discussed?" (some "talk") 3 =
      some { rows := [[]] } ∧
    handle_user_message rankAll dbEmptyTalk (some "talk")
        "What is discussed?" =
      ChatResponse.generated "What is discussed?" "" := by
  exact ⟨rfl, rfl⟩

/-- C4 (code bug): the collection name is derived from `hash(safe_title)`,
CPython's per-process salted string hash, so the very same title yields
different collection names under different process salts — collections
persisted on disk are not addressable by name across process restarts. -/
theorem collection_name_not_stable_across_processes :
    derived_collection_name 0 "Video" ≠ derived_collection_name 1 "Video" := by
  decide

/-- C3 counterexample: ingesting the whitespace-only transcript `"   "`
does fail (no collection id is returned, so no library entry will be
appended), but it does NOT leave the store unchanged: the check
`if not text.strip()` at vector_db.py line 46 runs only after the existing
collection was deleted (line 38) and `get_or_create_collection` re-created
it empty (line 42), so an empty collection under the derived name now
exists. -/
theorem blank_ingest_counterexample :
    (add_transcript splitWhole 0 db0 tdBlank).2 = none ∧
    (add_transcript splitWhole 0 db0 tdBlank).1.store ≠ db0.store ∧
    storeLookup (add_transcript splitWhole 0 db0 tdBlank).1.store
        (derived_collection_name 0 tdBlank.title) = some [] := by
  decide

/-- C3 (amended): ingesting an empty or whitespace-only transcript fails
(`add_transcript` returns no collection id, so `process_video` aborts with
"Failed to create search index") and appends no library entry — but it does
not leave the store unchanged: an empty collection under the derived name
is created (replacing any previous collection of the same name). -/
theorem blank_transcript_ingestion (env : ProcessEnv) (db : DBState)
    (lib : List LibEntry) (raw : RawVideoInfo) (p : String)
    (td : TranscriptData)
    (hurl : env.urlValid = true) (hex : env.extracted = Except.ok raw)
    (hdur : raw.duration ≤ MAX_VIDEO_LENGTH)
    (hdl : env.download = Except.ok p) (htr : env.transcribe = Except.ok td)
    (hemb : db.embedding_loaded = true)
    (hblank : pyStrip td.transcript = "") :
    (process_video env db lib).1 = ProcessOutcome.indexFailed ∧
    (process_video env db lib).2.2 = lib ∧
    storeLookup (process_video env db lib).2.1.store
        (derived_collection_name env.seed td.title) = some [] := by
  have hvi : get_video_info env.urlValid env.extracted =
      { success := true, error := "", title := raw.title
        uploader := raw.uploader, duration_seconds := raw.duration } := by
    rw [hurl, hex]
    simp [get_video_info, Nat.not_lt.mpr hdur]
  have hadd : add_transcript env.split env.seed db td =
      ({ db with
          store :=
            storeErase db.store (derived_collection_name env.seed td.title) ++
              [(derived_collection_name env.seed td.title, [])] }, none) := by
    rw [add_transcript_eq]
    simp [hemb, hblank]
  simp only [process_video, hvi, hdl, htr, hadd]
  refine ⟨rfl, rfl, ?_⟩
  exact storeLookup_append_self _ _ _ (storeLookup_erase_self _ _)

/-- C3 witness for the amended claim: the concrete whitespace-only run. -/
theorem blank_transcript_ingestion_witness :
    pyStrip tdBlank.transcript = "" ∧
    ((process_video envBlank db0 []).1 = ProcessOutcome.indexFailed ∧
      (process_video envBlank db0 []).2.2 = [] ∧
      storeLookup (process_video envBlank db0 []).2.1.store
          (derived_collection_name envBlank.seed tdBlank.title) = some []) :=
  ⟨by decide,
    blank_transcript_ingestion envBlank db0 []
      { title := "T", uploader := "U", duration := 100 } "audio.mp3" tdBlank
      rfl rfl (by decide) rfl rfl rfl (by decide)⟩

/-- C10: when yt-dlp reports a duration over `MAX_VIDEO_LENGTH` (7200
seconds), `get_video_info` returns `success=False` with the
`'Video too long'` error, and `process_video` aborts at step 1 — for every
possible outcome of the download, transcription and indexing collaborators,
none of which is ever consulted — leaving the store and the library
untouched. -/
theorem video_too_long_never_processed (env : ProcessEnv) (db : DBState)
    (lib : List LibEntry) (raw : RawVideoInfo)
    (hurl : env.urlValid = true) (hex : env.extracted = Except.ok raw)
    (hdur : MAX_VIDEO_LENGTH < raw.duration) :
    get_video_info env.urlValid env.extracted =
      { success := false
        error := "Video too long (" ++ format_duration raw.duration ++
          "). Max allowed: " ++ format_duration MAX_VIDEO_LENGTH
        title := "", uploader := "", duration_seconds := 0 } ∧
    process_video env db lib =
      (ProcessOutcome.infoFailed
        ("Video too long (" ++ format_duration raw.duration ++
          "). Max allowed: " ++ format_duration MAX_VIDEO_LENGTH), db, lib) := by
  have hvi : get_video_info env.urlValid env.extracted =
      { success := false
        error := "Video too long (" ++ format_duration raw.duration ++
          "). Max allowed: " ++ format_duration MAX_VIDEO_LENGTH
        title := "", uploader := "", duration_seconds := 0 } := by
    rw [hurl, hex]
    simp [get_video_info, hdur]
  exact ⟨hvi, by simp [process_video, hvi]⟩

/-- C10 witness: a 7201-second video is rejected before any download. -/
theorem video_too_long_witness :
    envLong.urlValid = true ∧ MAX_VIDEO_LENGTH < (7201 : Nat) ∧
    process_video envLong db0 [] =
      (ProcessOutcome.infoFailed
        ("Video too long (" ++ format_duration 7201 ++
          "). Max allowed: " ++ format_duration MAX_VIDEO_LENGTH), db0, []) :=
  ⟨rfl, by decide,
    (video_too_long_never_processed envLong db0 []
      { title := "Long", uploader := "U", duration := 7201 }
      rfl rfl (by decide)).2⟩

/-- C5: the processed-videos library never exceeds 5 entries — registering
a new entry preserves the bound — and when a 6th video is registered while
the library holds 5, exactly the first-ingested entry is popped from the
front (FIFO) before the new entry is appended, and its collection is deleted
from the store. -/
theorem library_capacity (db : DBState) (lib : List LibEntry) (v : LibEntry)
    (h : lib.length ≤ 5) :
    (registerVideo db lib v).2.length ≤ 5 ∧
    (∀ oldest rest, lib = oldest :: rest → lib.length = 5 →
      (registerVideo db lib v).2 = rest ++ [v] ∧
      storeLookup (registerVideo db lib v).1.store oldest.collection_id =
        none) := by
  constructor
  · unfold registerVideo
    by_cases h5 : 5 ≤ lib.length
    · rw [if_pos h5]
      cases lib with
      | nil => simp at h5
      | cons o rest =>
        simp only [List.length_append, List.length_cons] at h ⊢
        simp
        omega
    · rw [if_neg h5]
      simp
      omega
  · intro oldest rest hcons h5
    subst hcons
    unfold registerVideo
    rw [if_pos (by omega)]
    exact ⟨rfl, delete_collection_lookup _ _⟩

/-- C5 witness: registering a 6th video on a concrete 5-entry library. -/
theorem library_capacity_witness :
    lib5.length ≤ 5 ∧
    ((registerVideo db5 lib5 v6).2.length ≤ 5 ∧
      (∀ oldest rest, lib5 = oldest :: rest → lib5.length = 5 →
        (registerVideo db5 lib5 v6).2 = rest ++ [v6] ∧
        storeLookup (registerVideo db5 lib5 v6).1.store oldest.collection_id =
          none)) :=
  ⟨by decide, library_capacity db5 lib5 v6 (by decide)⟩

/-- C6: re-ingestion is idempotent.  Because `add_transcript` deletes any
existing collection under the derived name and recreates it before adding
chunks, ingesting the same transcript twice yields exactly the state of a
single ingestion — in particular the collection holds the same documents,
so its document count equals that of one ingestion and no duplicates
accumulate. -/
theorem add_transcript_idempotent (split : String → List String) (seed : Nat)
    (s : DBState) (td : TranscriptData) :
    add_transcript split seed (add_transcript split seed s td).1 td =
      add_transcript split seed s td := by
  rw [add_transcript_eq split seed s td]
  by_cases hemb : s.embedding_loaded = false
  · rw [if_pos hemb, add_transcript_eq]
    simp [hemb]
  · rw [if_neg hemb]
    simp only
    by_cases ht : pyStrip td.transcript = ""
    · rw [if_pos ht, add_transcript_eq]
      simp [hemb, ht, storeErase_append, storeErase_erase_self, storeErase]
    · rw [if_neg ht]
      by_cases hd : buildDocs td 0 (split td.transcript) = []
      · rw [if_pos hd, add_transcript_eq]
        simp [hemb, ht, hd, storeErase_append, storeErase_erase_self,
          storeErase]
      · rw [if_neg hd, add_transcript_eq]
        simp [hemb, ht, hd, storeErase_append, storeErase_erase_self,
          storeErase]

/-- On success, the returned name is the derived collection name and the
collection under it holds exactly the filtered chunks. -/
theorem add_transcript_success (split : String → List String) (seed : Nat)
    (s : DBState) (td : TranscriptData) (cn : String)
    (h : (add_transcript split seed s td).2 = some cn) :
    cn = derived_collection_name seed td.title ∧
    storeLookup (add_transcript split seed s td).1.store cn =
      some (buildDocs td 0 (split td.transcript)) := by
  rw [add_transcript_eq] at h ⊢
  by_cases hemb : s.embedding_loaded = false
  · rw [if_pos hemb] at h; cases h
  · rw [if_neg hemb] at h ⊢
    simp only at h ⊢
    by_cases ht : pyStrip td.transcript = ""
    · rw [if_pos ht] at h; cases h
    · rw [if_neg ht] at h ⊢
      by_cases hd : buildDocs td 0 (split td.transcript) = []
      · rw [if_pos hd] at h; cases h
      · rw [if_neg hd] at h ⊢
        have hcn : cn = derived_collection_name seed td.title := by
          simpa using h.symm
        subst hcn
        refine ⟨rfl, ?_⟩
        exact storeLookup_append_self _ _ _ (storeLookup_erase_self _ _)

/-- C7: every document stored by a successful ingestion has a stripped
length of at least 10 characters (the code in fact requires strictly more
than 10) — in particular no empty or whitespace-only chunk is indexed —
carries metadata `{video_title, uploader, chunk_index}` taken from the
transcript, and has the id `chunk_<chunk_index>`, unique within the
collection. -/
theorem added_documents_meaningful (split : String → List String)
    (seed : Nat) (s : DBState) (td : TranscriptData) (cn : String)
    (h : (add_transcript split seed s td).2 = some cn) :
    (∀ d ∈ (storeLookup (add_transcript split seed s td).1.store cn).getD [],
      10 ≤ (pyStrip d.text).length ∧ pyStrip d.text ≠ "" ∧
      d.video_title = td.title ∧ d.uploader = td.uploader.getD "Unknown" ∧
      d.id = "chunk_" ++ Nat.repr d.chunk_index) ∧
    (((storeLookup (add_transcript split seed s td).1.store cn).getD
        []).map (fun d => d.id)).Nodup := by
  obtain ⟨hcn, hlook⟩ := add_transcript_success split seed s td cn h
  rw [hlook]
  simp only [Option.getD_some]
  constructor
  · intro d hd
    have h5 := buildDocs_mem td 0 _ d hd
    refine ⟨by omega, ?_, h5.2.1, h5.2.2.1, h5.2.2.2.1⟩
    intro hempty
    have hlen : (pyStrip d.text).length = 0 := by rw [hempty]; rfl
    omega
  · exact buildDocs_ids_nodup td 0 _

/-- C7 witness: a concrete successful ingestion. -/
theorem added_documents_meaningful_witness :
    (add_transcript splitWhole 0 db0 tdGood).2 = some "video_84" ∧
    ((∀ d ∈ (storeLookup (add_transcript splitWhole 0 db0 tdGood).1.store
          "video_84").getD [],
        10 ≤ (pyStrip d.text).length ∧ pyStrip d.text ≠ "" ∧
        d.video_title = tdGood.title ∧
        d.uploader = tdGood.uploader.getD "Unknown" ∧
        d.id = "chunk_" ++ Nat.repr d.chunk_index) ∧
      (((storeLookup (add_transcript splitWhole 0 db0 tdGood).1.store
          "video_84").getD []).map (fun d => d.id)).Nodup) :=
  ⟨by decide,
    added_documents_meaningful splitWhole 0 db0 tdGood "video_84"
      (by decide)⟩

/-- C8: `delete_collection` is total (it always returns an updated state
and a boolean, no exception escapes): deleting a nonexistent collection
returns the failure indicator `false` with the state untouched; deleting
the same name twice leaves the same state as deleting it once; when the
deleted collection is the current one the `current_collection` attribute is
cleared, and otherwise it is left unchanged. -/
theorem delete_collection_contract (s : DBState) (name : String) :
    (storeLookup s.store name = none →
      delete_collection s name = (s, false)) ∧
    ((delete_collection (delete_collection s name).1 name).1 =
      (delete_collection s name).1) ∧
    (storeLookup s.store name ≠ none → s.current_collection = some name →
      (delete_collection s name).1.current_collection = none) ∧
    (s.current_collection ≠ some name →
      (delete_collection s name).1.current_collection =
        s.current_collection) := by
  refine ⟨?_, ?_, ?_, ?_⟩
  · intro h
    simp [delete_collection, h]
  · cases hl : storeLookup s.store name with
    | none => simp [delete_collection, hl]
    | some c => simp [delete_collection, hl, storeLookup_erase_self]
  · intro hne hcur
    cases hl : storeLookup s.store name with
    | none => exact absurd hl hne
    | some c => simp [delete_collection, hl, hcur]
  · intro hcur
    cases hl : storeLookup s.store name with
    | none => simp [delete_collection, hl]
    | some c => simp [delete_collection, hl, hcur]

/-- C8 witness: deleting a missing name fails idempotently; deleting the
current collection clears the current-collection state. -/
theorem delete_collection_contract_witness :
    (storeLookup dbTwo.store "zzz" = none ∧
      delete_collection dbTwo "zzz" = (dbTwo, false)) ∧
    (storeLookup dbTwo.store "b" ≠ none ∧
      dbTwo.current_collection = some "b" ∧
      (delete_collection dbTwo "b").1.current_collection = none) :=
  ⟨⟨by decide, (delete_collection_contract dbTwo "zzz").1 (by decide)⟩,
    ⟨by decide, by decide,
      (delete_collection_contract dbTwo "b").2.2.1 (by decide) (by decide)⟩⟩

/-- C9: `generate_response` is total from the session's point of view —
every branch returns a string — and every failure outcome (non-200 HTTP
status, timeout, connection failure, or any other exception) is mapped to
an error-message string of the form `"Error: ..."` instead of an exception
propagating out. -/
theorem generate_response_failure_is_error_string (q c : String)
    (r : HttpOutcome) (h : isFailureOutcome r = true) :
    ∃ rest, generate_response q c r = "Error: " ++ rest := by
  cases r with
  | ok status body =>
    have hs : ¬ status = 200 := by simpa [isFailureOutcome] using h
    refine ⟨match body.errorDetail with
      | some d =>
        if d = "" then "Ollama API error: " ++ Nat.repr status
        else "Ollama API error: " ++ Nat.repr status ++ " - " ++ d
      | none => "Ollama API error: " ++ Nat.repr status, ?_⟩
    simp only [generate_response, if_neg hs]
  | timeout => exact ⟨_, rfl⟩
  | connectionError => exact ⟨_, rfl⟩
  | exc msg => exact ⟨_, rfl⟩

/-- C9 witness: the timeout outcome produces an error-message string. -/
theorem generate_response_failure_witness :
    isFailureOutcome HttpOutcome.timeout = true ∧
    ∃ rest,
      generate_response "q" "ctx" HttpOutcome.timeout = "Error: " ++ rest :=
  ⟨by decide,
    generate_response_failure_is_error_string "q" "ctx" HttpOutcome.timeout
      (by decide)⟩

end YtRag
